import Mathlib

/-!
Verification of the Exported Tests parser core (IBM/exported-tests):
the node classifier of `src/parsers/base.ts` and the BDD traversal engine
of `src/parsers/BDD.ts`, embedded shallowly in Lean.

Two node models are used:
* `JSNode` with `FieldVal` fields models a node as a dynamic JavaScript
  value, exposing exactly the observations the classifier performs
  (truthiness, `Array.isArray`, `typeof === 'function'`,
  `typeof === 'string'`).  It is used for the static classifier functions
  `isSuite` and `getTestType`.
* `TNode` models a well-formed declarative node tree semantically
  (functions are Lean functions, optional fields are `Option`); it is used
  for the traversal engine, whose runs are modelled as traces of
  framework-registration events.
-/

namespace ExportedTests

/-- A JavaScript property value as observed by the classifier checks of
`TestParser` in `src/parsers/base.ts`: the code only inspects truthiness,
`Array.isArray`, `typeof v === 'function'` and `typeof v === 'string'`,
so a value is represented by its class under those observations.
`undef` stands for an absent property (or the value `undefined`);
`other b` stands for any non-function, non-array, non-string value with
truthiness `b` (for example `null`, `0`, `false` or an object). -/
inductive FieldVal where
  | undef
  | fn
  | arr (len : Nat)
  | str (s : String)
  | other (truthy : Bool)
deriving DecidableEq

/-- JavaScript truthiness of a `FieldVal`: `undefined`, `""` and falsy
primitives are falsy; functions, arrays (even empty ones) and non-empty
strings are truthy. -/
def FieldVal.truthy : FieldVal → Bool
  | .undef => false
  | .fn => true
  | .arr _ => true
  | .str s => s ≠ ""
  | .other b => b

/-- `Array.isArray v`. -/
def FieldVal.isArray : FieldVal → Bool
  | .arr _ => true
  | _ => false

/-- `typeof v === 'function'`. -/
def FieldVal.isFunction : FieldVal → Bool
  | .fn => true
  | _ => false

/-- `typeof v === 'string'`. -/
def FieldVal.isString : FieldVal → Bool
  | .str _ => true
  | _ => false

/-- The property is present on the node (it is not `undefined`). -/
def FieldVal.present : FieldVal → Bool
  | .undef => false
  | _ => true

theorem FieldVal.truthy_of_isArray {v : FieldVal} (h : v.isArray = true) :
    v.truthy = true := by
  cases v <;> simp_all [FieldVal.isArray, FieldVal.truthy]

theorem FieldVal.not_truthy_of_not_present {v : FieldVal} (h : v.present = false) :
    v.truthy = false := by
  cases v <;> simp_all [FieldVal.present, FieldVal.truthy]

/-- A declarative node as seen by the static classifier of
`src/parsers/base.ts`: only the four properties the classifier reads are
recorded, each as a dynamic JavaScript value. -/
structure JSNode where
  name : FieldVal
  tests : FieldVal
  getFragmentSet : FieldVal
  inheritedTests : FieldVal
deriving DecidableEq

/-- `TestParser.isSuite` (`src/parsers/base.ts`, lines 106-122):
`if (test.tests) { if (!Array.isArray(test.tests)) throw ...; return true }
if (typeof test.name === 'string') return false; throw ...`. -/
def isSuite (test : JSNode) : Except String Bool :=
  if test.tests.truthy then
    if !test.tests.isArray then
      .error "Test suites must include an array of tests"
    else
      .ok true
  else if test.name.isString then
    .ok false
  else
    .error "Invalid exported-test or test-suite object format (missing an name)"

/-- `TestParser.getTestType` (`src/parsers/base.ts`, lines 129-139):
`set` when `getFragmentSet` is a function, else `inherit` when
`inheritedTests` is an array, else `default`. -/
def getTestType (test : JSNode) : String :=
  if test.getFragmentSet.isFunction then "set"
  else if test.inheritedTests.isArray then "inherit"
  else "default"

/-! ## The traversal engine

The engine is modelled over a semantic node tree `TNode F W A R`:
`F` is the type of document fragments, `W` the type of window objects,
`A` the type of values produced by `getActual`, `R` the type of results
produced by `runComparison`.  The window held by an engine instance is
`Option W` (`none` is JavaScript `null`, the initial value of the
`window` field of `TestParser`), and the index argument is `Option Nat`
(`none` is `undefined`, the value at the top level of a run).
Callable optional properties are `Option` of a Lean function; `none`
stands for an absent (or non-callable) property, since the source only
ever tests them with `typeof v === 'function'`.  Hook properties
(`beforeAll` and friends) are modelled by a `Bool` recording whether the
property is a function, because the engine only registers them with the
test framework and never runs them during traversal. -/

/-- A declarative node of the Exported Tests tree: the union of the
`test-suite` and `exported-test` shapes of `src/parsers/base.ts`.
`name = none` means the `name` property is absent or not a string;
`tests = none` means the `tests` property is absent (when present it is
an array of child nodes); similarly for `inheritedTests`. -/
inductive TNode (F W A R : Type) : Type where
  | mk
    (name : Option String)
    (tests : Option (List (TNode F W A R)))
    (checkConditions : Option (F → Option W → Option Nat → Bool))
    (inheritedTests : Option (List (TNode F W A R)))
    (getFragmentSet : Option (F → List F))
    (getSubFragment : Option (F → F))
    (getActual : Option (F → Option W → Option Nat → A))
    (runComparison : Option (A → R))
    (beforeAll beforeEach afterAll afterEach : Bool)
    (hasBefore hasAfter : Bool)
    (fragmentSetMessage : Option String)

namespace TNode

variable {F W A R : Type}

/-- The `name` property (`some` iff it is a string). -/
def name : TNode F W A R → Option String
  | .mk n _ _ _ _ _ _ _ _ _ _ _ _ _ _ => n

/-- The `tests` property (`some` iff present, as an array of nodes). -/
def tests : TNode F W A R → Option (List (TNode F W A R))
  | .mk _ t _ _ _ _ _ _ _ _ _ _ _ _ _ => t

/-- The `checkConditions` property (`some` iff it is a function). -/
def checkConditions : TNode F W A R → Option (F → Option W → Option Nat → Bool)
  | .mk _ _ c _ _ _ _ _ _ _ _ _ _ _ _ => c

/-- The `inheritedTests` property (`some` iff it is an array). -/
def inheritedTests : TNode F W A R → Option (List (TNode F W A R))
  | .mk _ _ _ i _ _ _ _ _ _ _ _ _ _ _ => i

/-- The `getFragmentSet` property (`some` iff it is a function). -/
def getFragmentSet : TNode F W A R → Option (F → List F)
  | .mk _ _ _ _ g _ _ _ _ _ _ _ _ _ _ => g

/-- The `getSubFragment` property (`some` iff it is a function). -/
def getSubFragment : TNode F W A R → Option (F → F)
  | .mk _ _ _ _ _ g _ _ _ _ _ _ _ _ _ => g

/-- The `getActual` property (`some` iff it is a function). -/
def getActual : TNode F W A R → Option (F → Option W → Option Nat → A)
  | .mk _ _ _ _ _ _ g _ _ _ _ _ _ _ _ => g

/-- The `runComparison` property (`some` iff it is a function). -/
def runComparison : TNode F W A R → Option (A → R)
  | .mk _ _ _ _ _ _ _ r _ _ _ _ _ _ _ => r

/-- Whether the `beforeAll` property is a function. -/
def beforeAll : TNode F W A R → Bool
  | .mk _ _ _ _ _ _ _ _ b _ _ _ _ _ _ => b

/-- Whether the `beforeEach` property is a function. -/
def beforeEach : TNode F W A R → Bool
  | .mk _ _ _ _ _ _ _ _ _ b _ _ _ _ _ => b

/-- Whether the `afterAll` property is a function. -/
def afterAll : TNode F W A R → Bool
  | .mk _ _ _ _ _ _ _ _ _ _ a _ _ _ _ => a

/-- Whether the `afterEach` property is a function. -/
def afterEach : TNode F W A R → Bool
  | .mk _ _ _ _ _ _ _ _ _ _ _ a _ _ _ => a

/-- Whether the unsupported `before` property is a function
(it only triggers a warning). -/
def hasBefore : TNode F W A R → Bool
  | .mk _ _ _ _ _ _ _ _ _ _ _ _ b _ _ => b

/-- Whether the unsupported `after` property is a function
(it only triggers a warning). -/
def hasAfter : TNode F W A R → Bool
  | .mk _ _ _ _ _ _ _ _ _ _ _ _ _ a _ => a

/-- The `fragmentSetMessage` property (`some` iff it is a string). -/
def fragmentSetMessage : TNode F W A R → Option String
  | .mk _ _ _ _ _ _ _ _ _ _ _ _ _ _ m => m

/-- `TestParser.isSuite` restricted to well-formed node values: on a
`TNode`, `test.tests` is truthy exactly when the property is present
(a JavaScript array, even empty, is truthy), and it is then always an
array, so only the `true`, `false` and missing-name outcomes remain. -/
def isSuite (t : TNode F W A R) : Except String Bool :=
  match t.tests with
  | some _ => .ok true
  | none =>
    match t.name with
    | some _ => .ok false
    | none =>
      .error "Invalid exported-test or test-suite object format (missing an name)"

/-- `TestParser.getTestType` on a `TNode`. -/
def getTestType (t : TNode F W A R) : String :=
  if t.getFragmentSet.isSome then "set"
  else if t.inheritedTests.isSome then "inherit"
  else "default"

end TNode

/-- `TestParser.getFragment` (`src/parsers/base.ts`, lines 148-154): the
`test` argument may be `null`/`undefined` (modelled by `none`); when the
node has a callable `getSubFragment` its result is returned, otherwise
the fragment is returned unchanged. -/
def getFragment {F W A R : Type} (test : Option (TNode F W A R)) (fragment : F) : F :=
  match test with
  | some t =>
    match t.getSubFragment with
    | some g => g fragment
    | none => fragment
  | none => fragment

/-! ## Run traces

A run of the engine (the test-collection phase of a BDD framework such as
Mocha or Jest) is modelled as the list of observable framework calls it
performs, in order, together with the JavaScript exception that aborted
it, if any.  `describe(name, cb)` invokes `cb` synchronously, so it
contributes a `describeStart` event, then the events of `cb`, then a
`describeEnd` event if `cb` returned normally.  Registering a hook or a
test does not run it; an `itReg` event records the registered test's
name together with the fragment, window and index its body captured and
the result its body produces when eventually run (the settled value of
`getActual(...).then(runComparison)`). -/

/-- The errors the engine can raise: `format` for the `Error`s thrown
explicitly by the source (malformed nodes), `context` for the
constructor's context `Error`, and `typeError` for the TypeError raised
by calling `undefined` when a dispatch-table lookup misses. -/
inductive JsErr where
  | format (msg : String)
  | context (msg : String)
  | typeError
deriving DecidableEq

/-- Which suite hook was registered with the framework. -/
inductive HookKind where
  | beforeAllHook
  | beforeEachHook
  | afterAllHook
  | afterEachHook
deriving DecidableEq

/-- One observable framework interaction during a run. -/
inductive Event (F W R : Type) where
  | describeStart (name : Option String)
  | describeEnd
  | warn (msg : String)
  | hookReg (kind : HookKind)
  | condCall (fragment : F) (window : Option W) (index : Option Nat) (result : Bool)
  | itReg (name : String) (fragment : F) (window : Option W) (index : Option Nat) (result : R)

/-- The outcome of a run: the trace of events it performed, and the
exception (if any) that aborted it after those events. -/
abbrev Res (F W R : Type) := List (Event F W R) × Option JsErr

/-- A run that performs the given events and returns normally. -/
def okR {F W R : Type} (tr : List (Event F W R)) : Res F W R := (tr, none)

/-- Sequencing of runs, as in JavaScript: if the first run raised, the
second never happens and the effects of the first persist. -/
def andThenR {F W R : Type} (a b : Res F W R) : Res F W R :=
  match a.2 with
  | some e => (a.1, some e)
  | none => (a.1 ++ b.1, b.2)

/-- Sequential composition of a list of runs. -/
def seqR {F W R : Type} (rs : List (Res F W R)) : Res F W R :=
  rs.foldr andThenR ([], none)

/-- `describe(name, cb)`: run the body synchronously inside the
`describe` registration; an exception in the body propagates out. -/
def inDescribe {F W R : Type} (name : Option String) (body : Res F W R) : Res F W R :=
  match body.2 with
  | some e => (.describeStart name :: body.1, some e)
  | none => (.describeStart name :: body.1 ++ [.describeEnd], none)

section Engine

variable {F W A R : Type}

/-- `TestParser.doParseTest` (`src/parsers/base.ts`, lines 197-202):
true when `conditions` is `undefined`, otherwise the truthiness of
`conditions(fragment, this.window, index)`.  The call to a present
`conditions` is recorded as a `condCall` event. -/
def doParseTest (window : Option W) (conditions : Option (F → Option W → Option Nat → Bool))
    (fragment : F) (index : Option Nat) : List (Event F W R) × Bool :=
  match conditions with
  | none => ([], true)
  | some c => ([.condCall fragment window index (c fragment window index)], c fragment window index)

/-- `BDDTestParser.suiteSetup` (`src/parsers/BDD.ts`, lines 63-82):
warn about an unsupported `before` property, then register the
`beforeAll` and `beforeEach` hooks that are present. -/
def suiteSetup (t : TNode F W A R) : List (Event F W R) :=
  (if t.hasBefore then
    [.warn "Exported Tests do not support `before` use the `beforeAll` property instead"]
   else []) ++
  (if t.beforeAll then [.hookReg .beforeAllHook] else []) ++
  (if t.beforeEach then [.hookReg .beforeEachHook] else [])

/-- `BDDTestParser.suiteCleanup` (`src/parsers/BDD.ts`, lines 92-111). -/
def suiteCleanup (t : TNode F W A R) : List (Event F W R) :=
  (if t.hasAfter then
    [.warn "Exported Tests do not support `after` use the `afterAll` property instead"]
   else []) ++
  (if t.afterAll then [.hookReg .afterAllHook] else []) ++
  (if t.afterEach then [.hookReg .afterEachHook] else [])

/-- `BDDTestParser.createTest` (`src/parsers/BDD.ts`, lines 190-204):
throw when `getActual` or `runComparison` is not a function or `name` is
not a string; otherwise register one `it` whose body runs
`getActual(fragment, wndw, index).then(runComparison)` — the `itReg`
event records the captured arguments and the settled result of that
promise chain. -/
def createTest (window : Option W) (t : TNode F W A R) (fragment : F) (index : Option Nat) :
    Res F W R :=
  match t.getActual, t.runComparison, t.name with
  | some ga, some rc, some n =>
    ([.itReg n fragment window index (rc (ga fragment window index))], none)
  | _, _, _ => ([], some (.format "Invalid Exported Tests test format"))

/-- `TestParser.getTest` (`src/parsers/base.ts`, lines 229-233): gate on
`doParseTest(exportedTest.checkConditions, fragment, index)`, then
dispatch to `createTest`. -/
def getTest (window : Option W) (t : TNode F W A R) (fragment : F) (index : Option Nat) :
    Res F W R :=
  let c := doParseTest window t.checkConditions fragment index
  if c.2 then andThenR (c.1, none) (createTest window t fragment index)
  else (c.1, none)

/-- The suite description used for the `i`-th member of a fragment set:
`` `${test.fragmentSetMessage || 'Set index'}: ${i}` `` — an absent or
empty `fragmentSetMessage` (both falsy) defaults to `Set index`. -/
def setIdxName (t : TNode F W A R) (i : Nat) : String :=
  (match t.fragmentSetMessage with
   | some m => if m = "" then "Set index" else m
   | none => "Set index") ++ ": " ++ toString i

end Engine

/-- Which function the parser passed as the fourth argument of a
dispatch: `this.createSuite` for suite nodes, `this.getTest` for
exported-test nodes (`src/parsers/base.ts`, lines 286-307). -/
inductive FragTag where
  | suiteFn
  | testFn
deriving DecidableEq

theorem TNode.sizeOf_tests_lt {F W A R : Type} (t : TNode F W A R) :
    sizeOf t.tests < sizeOf t := by
  cases t
  simp [TNode.tests]
  omega

theorem TNode.sizeOf_inheritedTests_lt {F W A R : Type} (t : TNode F W A R) :
    sizeOf t.inheritedTests < sizeOf t := by
  cases t
  simp [TNode.inheritedTests]
  omega

mutual

/-- `TestParser.parser` (`src/parsers/base.ts`, lines 280-310): throw
when the `tests` argument is not an array (`none` models any non-array
value, such as `undefined`), otherwise process each node in order. -/
def parser {F W A R : Type} (window : Option W) (tests : Option (List (TNode F W A R)))
    (fragment : F) (index : Option Nat) : Res F W R :=
  match tests with
  | none => ([], some (.format "Test parser requires an array of test-suite objects"))
  | some l => parserNodes window l fragment index
termination_by (sizeOf tests, 5, 0)

/-- The `tests.forEach` loop of `TestParser.parser`: a throw at one node
aborts the remaining iterations. -/
def parserNodes {F W A R : Type} (window : Option W) (ts : List (TNode F W A R))
    (fragment : F) (index : Option Nat) : Res F W R :=
  match ts with
  | [] => ([], none)
  | t :: rest =>
    andThenR (parseNode window t fragment index) (parserNodes window rest fragment index)
termination_by (sizeOf ts, 0, 0)

/-- The body of the `forEach` loop of `TestParser.parser`: classify the
node with `isSuite`, select the dispatch operation from the
type-string-keyed table, and invoke it.  For a suite node of type
`inherit` the suite table has no entry, so the lookup yields `undefined`
and calling it throws a TypeError. -/
def parseNode {F W A R : Type} (window : Option W) (t : TNode F W A R)
    (fragment : F) (index : Option Nat) : Res F W R :=
  match TNode.isSuite t with
  | .error e => ([], some (.format e))
  | .ok true =>
    if TNode.getTestType t = "set" then
      createFragmentSuite window t fragment FragTag.suiteFn
    else if TNode.getTestType t = "default" then
      createSuite window t fragment index true
    else ([], some .typeError)
  | .ok false =>
    if TNode.getTestType t = "set" then
      createFragmentSuite window t (getFragment (some t) fragment) FragTag.testFn
    else if TNode.getTestType t = "inherit" then
      createInheritedSuite window t (getFragment (some t) fragment) index
    else
      getTest window t (getFragment (some t) fragment) index
termination_by (sizeOf t, 4, 0)

/-- `BDDTestParser.createSuite` (`src/parsers/BDD.ts`, lines 128-140):
gate on `doParseTest`; when the gate passes and setup/cleanup is
included, open a `describe` running setup, the recursive `parser` call
on `suite.tests`, and cleanup; without setup/cleanup just recurse.
(The base parser passes `this.createSuite`, a function and hence truthy,
as the fourth argument, so a suite dispatched by the parser always has
`includeSetupCleanup` truthy.) -/
def createSuite {F W A R : Type} (window : Option W) (t : TNode F W A R) (fragment : F)
    (index : Option Nat) (includeSetupCleanup : Bool) : Res F W R :=
  let c := doParseTest window t.checkConditions fragment index
  if c.2 then
    if includeSetupCleanup then
      andThenR (c.1, none)
        (inDescribe t.name
          (andThenR (okR (suiteSetup t))
            (andThenR (parser window t.tests fragment index) (okR (suiteCleanup t)))))
    else
      andThenR (c.1, none) (parser window t.tests fragment index)
  else (c.1, none)
termination_by (sizeOf t, 1, 0)
decreasing_by
  all_goals apply Prod.Lex.left
  all_goals exact TNode.sizeOf_tests_lt t

/-- `BDDTestParser.createFragmentSuite` (`src/parsers/BDD.ts`,
lines 154-164): open a `describe`, run the suite setup once, then for
each sub-fragment produced by `test.getFragmentSet(fragment)` open a
nested indexed `describe` and invoke the passed-in dispatch function
with `(test, subFragment, i, false)`, and finally run the cleanup once.
Calling it on a node without a callable `getFragmentSet` would throw a
TypeError. -/
def createFragmentSuite {F W A R : Type} (window : Option W) (t : TNode F W A R)
    (fragment : F) (tag : FragTag) : Res F W R :=
  match t.getFragmentSet with
  | none => ([], some .typeError)
  | some g =>
    inDescribe t.name
      (andThenR (okR (suiteSetup t))
        (andThenR (fragmentLoop window t (g fragment) 0 tag) (okR (suiteCleanup t))))
termination_by (sizeOf t, 3, 0)

/-- The `forEach` loop inside `createFragmentSuite`, carrying the
zero-based position `i` of the current sub-fragment. -/
def fragmentLoop {F W A R : Type} (window : Option W) (t : TNode F W A R)
    (frags : List F) (i : Nat) (tag : FragTag) : Res F W R :=
  match frags with
  | [] => ([], none)
  | fr :: rest =>
    andThenR (inDescribe (some (setIdxName t i)) (applyTestFn window tag t fr i false))
      (fragmentLoop window t rest (i + 1) tag)
termination_by (sizeOf t, 2, sizeOf frags)

/-- The invocation `testFunction(test, frag, i, false)` inside
`createFragmentSuite`: the parser passes either `this.createSuite`
(whose fourth parameter is `includeSetupCleanup`, here `false`) or
`this.getTest` (which ignores its fourth argument). -/
def applyTestFn {F W A R : Type} (window : Option W) (tag : FragTag) (t : TNode F W A R)
    (fragment : F) (i : Nat) (flag : Bool) : Res F W R :=
  match tag with
  | .suiteFn => createSuite window t fragment (some i) flag
  | .testFn => getTest window t fragment (some i)
termination_by (sizeOf t, 1, 1)

/-- `BDDTestParser.createInheritedSuite` (`src/parsers/BDD.ts`,
lines 178-182): a `describe` around a recursive `parser` call on
`test.inheritedTests`. -/
def createInheritedSuite {F W A R : Type} (window : Option W) (t : TNode F W A R)
    (fragment : F) (index : Option Nat) : Res F W R :=
  inDescribe t.name (parser window t.inheritedTests fragment index)
termination_by (sizeOf t, 1, 0)
decreasing_by
  all_goals apply Prod.Lex.left
  all_goals exact TNode.sizeOf_inheritedTests_lt t

end

/-! ## Construction -/

/-- The `wndwFragment` constructor argument of `TestParser`
(`src/parsers/base.ts`, lines 161-184), represented by the observations
the constructor performs on it and by its payloads under each reading:
`windowIsSelf` is `wndwFragment.window === wndwFragment`; `document` is
`wndwFragment.document` (`none` when absent or falsy); `nodeType` is
`wndwFragment.nodeType` (`none` when absent; `11` is
`Node.DOCUMENT_FRAGMENT_NODE`, `1` is `Node.ELEMENT_NODE`); `selfFrag`
is the argument itself read as a fragment or element; `selfWindow` is
the argument itself read as a window. -/
structure WndwFragment (F W : Type) where
  windowIsSelf : Bool
  document : Option F
  nodeType : Option Int
  selfFrag : F
  selfWindow : W

/-- The `TestParser` constructor (`src/parsers/base.ts`, lines 161-184)
run on a `BDDTestParser` instance: resolve the context — a window-like
argument sets `window` to it and `fragment` to its document, a
document-fragment argument becomes the fragment itself, an element
argument is wrapped into a fresh fragment (the
`template.innerHTML = outerHTML; template.content` step, modelled by
`wrap`), and any other shape throws before any traversal — then
immediately run `this.parser(tests, this.fragment)` once.  The result is
the resolved `(window, fragment)` instance state (`none` when the
constructor threw on the context) together with the run of the initial
traversal. -/
def construct {F W A R : Type} (wrap : F → F) (tests : Option (List (TNode F W A R)))
    (arg : WndwFragment F W) : Option (Option W × F) × Res F W R :=
  let nonWindow : Option (Option W × F) × Res F W R :=
    if arg.nodeType = some 11 then
      (some (none, arg.selfFrag), parser none tests arg.selfFrag none)
    else if arg.nodeType = some 1 then
      (some (none, wrap arg.selfFrag), parser none tests (wrap arg.selfFrag) none)
    else
      (none,
       ([], some (.context "Exported Tests require a Window object, DocumentFragment, or HTML element")))
  match arg.windowIsSelf, arg.document with
  | true, some d => (some (some arg.selfWindow, d), parser (some arg.selfWindow) tests d none)
  | _, _ => nonWindow

/-! ## Unfolding lemmas for the recursive engine -/

theorem createSuite_gate_true {F W A R : Type} (w : Option W) (t : TNode F W A R)
    (f : F) (i : Option Nat)
    (hc : (doParseTest (R := R) w t.checkConditions f i).2 = true) :
    createSuite w t f i true =
      andThenR ((doParseTest w t.checkConditions f i).1, none)
        (inDescribe t.name
          (andThenR (okR (suiteSetup t))
            (andThenR (parser w t.tests f i) (okR (suiteCleanup t))))) := by
  rw [createSuite.eq_def]
  simp [hc]

theorem createSuite_gate_true_noSetup {F W A R : Type} (w : Option W) (t : TNode F W A R)
    (f : F) (i : Option Nat)
    (hc : (doParseTest (R := R) w t.checkConditions f i).2 = true) :
    createSuite w t f i false =
      andThenR ((doParseTest w t.checkConditions f i).1, none) (parser w t.tests f i) := by
  rw [createSuite.eq_def]
  simp [hc]

theorem createSuite_gate_false {F W A R : Type} (w : Option W) (t : TNode F W A R)
    (f : F) (i : Option Nat) (incl : Bool)
    (hc : (doParseTest (R := R) w t.checkConditions f i).2 = false) :
    createSuite w t f i incl = ((doParseTest w t.checkConditions f i).1, none) := by
  rw [createSuite.eq_def]
  simp [hc]

theorem getTest_eq {F W A R : Type} (w : Option W) (t : TNode F W A R) (f : F)
    (i : Option Nat) :
    getTest w t f i =
      if (doParseTest (R := R) w t.checkConditions f i).2 then
        andThenR ((doParseTest w t.checkConditions f i).1, none) (createTest w t f i)
      else ((doParseTest w t.checkConditions f i).1, none) := rfl

/-! ## The window invariant

Every `condCall` and `itReg` event of a run records the window value
that was passed to the user-supplied `checkConditions` or captured for
`getActual`; the engine only ever passes its fixed `window` field. -/

/-- The event passes the given window to user code wherever a window is
passed at all: `condCall` and `itReg` record that window; all other
events pass no window. -/
def usesWindow {F W R : Type} (w : Option W) : Event F W R → Prop
  | .condCall _ w' _ _ => w' = w
  | .itReg _ _ w' _ _ => w' = w
  | _ => True

theorem usesWindow_andThenR {F W R : Type} {w : Option W} {a b : Res F W R}
    (ha : ∀ e ∈ a.1, usesWindow w e) (hb : ∀ e ∈ b.1, usesWindow w e) :
    ∀ e ∈ (andThenR a b).1, usesWindow w e := by
  intro e he
  unfold andThenR at he
  split at he
  · exact ha e he
  · rcases List.mem_append.mp he with h | h
    · exact ha e h
    · exact hb e h

theorem usesWindow_inDescribe {F W R : Type} {w : Option W} {n : Option String} {b : Res F W R}
    (hb : ∀ e ∈ b.1, usesWindow w e) :
    ∀ e ∈ (inDescribe n b).1, usesWindow w e := by
  intro e he
  unfold inDescribe at he
  split at he
  · rcases List.mem_cons.mp he with rfl | h
    · trivial
    · exact hb e h
  · rcases List.mem_cons.mp he with rfl | h
    · trivial
    · rcases List.mem_append.mp h with h2 | h2
      · exact hb e h2
      · rcases List.mem_singleton.mp h2 with rfl
        trivial

theorem usesWindow_suiteSetup {F W A R : Type} {w : Option W} (t : TNode F W A R) :
    ∀ e ∈ (suiteSetup t : List (Event F W R)), usesWindow w e := by
  intro e he
  unfold suiteSetup at he
  rcases List.mem_append.mp he with h | h
  · rcases List.mem_append.mp h with h2 | h2
    · split at h2
      · rcases List.mem_singleton.mp h2 with rfl; trivial
      · simp at h2
    · split at h2
      · rcases List.mem_singleton.mp h2 with rfl; trivial
      · simp at h2
  · split at h
    · rcases List.mem_singleton.mp h with rfl; trivial
    · simp at h

theorem usesWindow_suiteCleanup {F W A R : Type} {w : Option W} (t : TNode F W A R) :
    ∀ e ∈ (suiteCleanup t : List (Event F W R)), usesWindow w e := by
  intro e he
  unfold suiteCleanup at he
  rcases List.mem_append.mp he with h | h
  · rcases List.mem_append.mp h with h2 | h2
    · split at h2
      · rcases List.mem_singleton.mp h2 with rfl; trivial
      · simp at h2
    · split at h2
      · rcases List.mem_singleton.mp h2 with rfl; trivial
      · simp at h2
  · split at h
    · rcases List.mem_singleton.mp h with rfl; trivial
    · simp at h

theorem usesWindow_doParseTest {F W R : Type} (w : Option W)
    (conds : Option (F → Option W → Option Nat → Bool)) (f : F) (i : Option Nat) :
    ∀ e ∈ (doParseTest (R := R) w conds f i).1, usesWindow w e := by
  cases conds <;> simp [doParseTest, usesWindow]

theorem usesWindow_createTest {F W A R : Type} (w : Option W) (t : TNode F W A R)
    (f : F) (i : Option Nat) :
    ∀ e ∈ (createTest w t f i).1, usesWindow w e := by
  unfold createTest
  split <;> simp [usesWindow]

theorem usesWindow_getTest {F W A R : Type} (w : Option W) (t : TNode F W A R)
    (f : F) (i : Option Nat) :
    ∀ e ∈ (getTest w t f i).1, usesWindow w e := by
  rw [getTest_eq]
  split
  · exact usesWindow_andThenR (usesWindow_doParseTest w _ f i) (usesWindow_createTest w t f i)
  · exact usesWindow_doParseTest w _ f i

/-- Every run of the traversal engine passes only its fixed `window`
field to user-supplied callbacks: all `condCall` and `itReg` events of
the run carry exactly that window. -/
theorem parser_usesWindow {F W A R : Type} (w : Option W)
    (tests : Option (List (TNode F W A R))) (fragment : F) (index : Option Nat) :
    ∀ e ∈ (parser w tests fragment index).1, usesWindow w e := by
  refine parser.induct w
    (fun ts f i => ∀ e ∈ (parser w ts f i).1, usesWindow w e)
    (fun ts f i => ∀ e ∈ (parserNodes w ts f i).1, usesWindow w e)
    (fun t f i => ∀ e ∈ (parseNode w t f i).1, usesWindow w e)
    (fun t f i => ∀ e ∈ (createInheritedSuite w t f i).1, usesWindow w e)
    (fun t f i b => ∀ e ∈ (createSuite w t f i b).1, usesWindow w e)
    (fun t f tg => ∀ e ∈ (createFragmentSuite w t f tg).1, usesWindow w e)
    (fun t fs i tg => ∀ e ∈ (fragmentLoop w t fs i tg).1, usesWindow w e)
    (fun tg t f i b => ∀ e ∈ (applyTestFn w tg t f i b).1, usesWindow w e)
    ?_ ?_ ?_ ?_ ?_ ?_ ?_ ?_ ?_ ?_ ?_ ?_ ?_ ?_ ?_ ?_ ?_ ?_ ?_ ?_ ?_ tests fragment index
  · intro f i
    simp [parser]
  · intro f i l ih
    simpa [parser] using ih
  · intro f i
    simp [parserNodes]
  · intro f i t rest ih1 ih2
    rw [parserNodes]
    exact usesWindow_andThenR ih1 ih2
  · intro t f i e hs
    simp [parseNode, hs]
  · intro t f i hs ht ih
    rw [parseNode]
    simpa [hs, ht] using ih
  · intro t f i hs hns ht ih
    rw [parseNode]
    simpa [hs, hns, ht] using ih
  · intro t f i hs hns hnd
    rw [parseNode]
    simp [hs, hns, hnd]
  · intro t f i hs ht ih
    rw [parseNode]
    simpa [hs, ht] using ih
  · intro t f i hs hns ht ih
    rw [parseNode]
    simpa [hs, hns, ht] using ih
  · intro t f i hs hns hni
    rw [parseNode]
    simpa [hs, hns, hni] using usesWindow_getTest w t (getFragment (some t) f) i
  · intro t f i ih
    rw [createInheritedSuite]
    exact usesWindow_inDescribe ih
  · intro t f i c hc ih
    have hc2 : (doParseTest (R := R) w t.checkConditions f i).2 = true := hc
    rw [createSuite_gate_true w t f i hc2]
    exact usesWindow_andThenR (usesWindow_doParseTest w _ f i)
      (usesWindow_inDescribe
        (usesWindow_andThenR (usesWindow_suiteSetup t)
          (usesWindow_andThenR ih (usesWindow_suiteCleanup t))))
  · intro t f i incl c hc hni ih
    have hc2 : (doParseTest (R := R) w t.checkConditions f i).2 = true := hc
    cases incl
    · rw [createSuite_gate_true_noSetup w t f i hc2]
      exact usesWindow_andThenR (usesWindow_doParseTest w _ f i) ih
    · exact absurd rfl hni
  · intro t f i incl c hc
    have hc2 : (doParseTest (R := R) w t.checkConditions f i).2 = false := by
      simp only [Bool.not_eq_true] at hc
      exact hc
    rw [createSuite_gate_false w t f i incl hc2]
    exact usesWindow_doParseTest w _ f i
  · intro t f tg hg
    simp [createFragmentSuite, hg]
  · intro t f tg g hg ih
    rw [createFragmentSuite]
    simp only [hg]
    exact usesWindow_inDescribe
      (usesWindow_andThenR (usesWindow_suiteSetup t)
        (usesWindow_andThenR ih (usesWindow_suiteCleanup t)))
  · intro t i tg
    simp [fragmentLoop]
  · intro t i tg fr rest ih1 ih2
    rw [fragmentLoop]
    exact usesWindow_andThenR (usesWindow_inDescribe ih1) ih2
  · intro t f i flag ih
    rw [applyTestFn]
    exact ih
  · intro t f i flag
    rw [applyTestFn]
    exact usesWindow_getTest w t f (some i)

/-! ## Shape of a fragment-set run -/

theorem fragmentLoop_enumFrom {F W A R : Type} (w : Option W) (t : TNode F W A R)
    (tag : FragTag) (frags : List F) :
    ∀ (k : Nat),
      fragmentLoop w t frags k tag =
        seqR ((List.enumFrom k frags).map (fun p =>
          inDescribe (some (setIdxName t p.1)) (applyTestFn w tag t p.2 p.1 false))) := by
  induction frags with
  | nil =>
    intro k
    rw [fragmentLoop]
    simp [seqR, List.enumFrom]
  | cons fr rest ih =>
    intro k
    rw [fragmentLoop, ih (k + 1)]
    simp [seqR, List.enumFrom]

/-! ## Case analysis of the constructor -/

theorem construct_window {F W A R : Type} (wrap : F → F)
    (tests : Option (List (TNode F W A R))) (arg : WndwFragment F W) (d : F)
    (hw : arg.windowIsSelf = true) (hd : arg.document = some d) :
    construct wrap tests arg =
      (some (some arg.selfWindow, d), parser (some arg.selfWindow) tests d none) := by
  obtain ⟨ws, doc, nt, sf, sw⟩ := arg
  simp only at hw hd
  subst hw hd
  simp [construct]

theorem construct_fragment {F W A R : Type} (wrap : F → F)
    (tests : Option (List (TNode F W A R))) (arg : WndwFragment F W)
    (hnw : arg.windowIsSelf = false ∨ arg.document = none)
    (hnt : arg.nodeType = some 11) :
    construct wrap tests arg =
      (some (none, arg.selfFrag), parser none tests arg.selfFrag none) := by
  obtain ⟨ws, doc, nt, sf, sw⟩ := arg
  simp only at hnw hnt ⊢
  subst hnt
  rcases hnw with rfl | rfl
  · cases doc <;> simp [construct]
  · cases ws <;> simp [construct]

theorem construct_element {F W A R : Type} (wrap : F → F)
    (tests : Option (List (TNode F W A R))) (arg : WndwFragment F W)
    (hnw : arg.windowIsSelf = false ∨ arg.document = none)
    (hnt : arg.nodeType ≠ some 11) (het : arg.nodeType = some 1) :
    construct wrap tests arg =
      (some (none, wrap arg.selfFrag), parser none tests (wrap arg.selfFrag) none) := by
  obtain ⟨ws, doc, nt, sf, sw⟩ := arg
  simp only at hnw hnt het ⊢
  subst het
  rcases hnw with rfl | rfl
  · cases doc <;> simp [construct]
  · cases ws <;> simp [construct]

theorem construct_other {F W A R : Type} (wrap : F → F)
    (tests : Option (List (TNode F W A R))) (arg : WndwFragment F W)
    (hnw : arg.windowIsSelf = false ∨ arg.document = none)
    (hnt : arg.nodeType ≠ some 11) (het : arg.nodeType ≠ some 1) :
    construct (A := A) (R := R) wrap tests arg =
      (none,
       ([], some (.context
         "Exported Tests require a Window object, DocumentFragment, or HTML element"))) := by
  obtain ⟨ws, doc, nt, sf, sw⟩ := arg
  simp only at hnw hnt het ⊢
  rcases hnw with rfl | rfl
  · cases doc <;> simp [construct, hnt, het]
  · cases ws <;> simp [construct, hnt, het]

/-! ## Trace classification predicates -/

/-- The event is a leaf-test registration (a `createTest` reaching the
framework's `it`). -/
def Event.isItRegEvent {F W R : Type} : Event F W R → Bool
  | .itReg _ _ _ _ _ => true
  | _ => false

/-- The event is a setup or cleanup hook registration. -/
def Event.isHookRegEvent {F W R : Type} : Event F W R → Bool
  | .hookReg _ => true
  | _ => false

/-- The event opens a `describe` block. -/
def Event.isDescribeStartEvent {F W R : Type} : Event F W R → Bool
  | .describeStart _ => true
  | _ => false

/-! ## Fixtures for the concrete witnesses -/

/-- The node `{ name: 'card', tests: 0 }`: its `tests` property is
present but holds a falsy non-array value. -/
def c1node : JSNode := ⟨.str "card", .other false, .undef, .undef⟩

/-- A node whose `getFragmentSet` is callable and whose
`inheritedTests` is an array at the same time. -/
def c2node : JSNode := ⟨.str "n", .undef, .fn, .arr 3⟩

/-- A gated leaf test for the C4 witness. -/
def c4leaf : TNode Nat Nat Nat Nat :=
  .mk (some "t1") none none none none none (some (fun f _ _ => f)) (some (fun a => a))
    false false false false false false none

/-- A suite with hooks and a child test whose `checkConditions` always
returns `false`. -/
def c4node : TNode Nat Nat Nat Nat :=
  .mk (some "G") (some [c4leaf]) (some (fun _ _ _ => false)) none none none none none
    true true true true false false none

/-- A well-formed leaf test: `getActual` adds the fragment and the
index, `runComparison` doubles the value. -/
def c5good : TNode Nat Nat Nat Nat :=
  .mk (some "t1") none none none none none (some (fun f _ i => f + i.getD 0))
    (some (fun a => a * 2)) false false false false false false none

/-- A leaf test with no `runComparison`. -/
def c5bad : TNode Nat Nat Nat Nat :=
  .mk (some "bad") none none none none none (some (fun f _ _ => f)) none
    false false false false false false none

/-- A suite node (its `tests` is an array) that also carries an
`inheritedTests` array and no `getFragmentSet`, so its test type is
`inherit`. -/
def c6node : TNode Nat Nat Nat Nat :=
  .mk (some "S") (some []) none (some []) none none none none
    false false false false false false none

/-- A node with a `getSubFragment` that multiplies the fragment by
ten. -/
def c9node : TNode Nat Nat Nat Nat :=
  .mk (some "sub") none none none none (some (fun f => f * 10)) none none
    false false false false false false none

/-! ## The claims -/

/-- An exported-test with a two-element fragment set, for the C3
witness. -/
def c3node : TNode Nat Nat Nat Nat :=
  .mk (some "FS") none none none (some (fun f => [f + 1, f + 2])) none
    (some (fun f _ i => f + i.getD 0)) (some (fun a => a))
    true false false true false false (some "Card")

/-- A window-shaped constructor argument: `window === self`, with a
document, for the C7 witness. -/
def c7warg : WndwFragment Nat Nat := ⟨true, some 5, none, 0, 9⟩

/-- A constructor argument that is neither window-like nor a fragment
nor an element (`nodeType` is 3, a text node), for the C7 witness. -/
def c7oarg : WndwFragment Nat Nat := ⟨false, none, some 3, 0, 0⟩

/-- A leaf test with a condition, for the C10 witness. -/
def c10leaf : TNode Nat Nat Nat Nat :=
  .mk (some "t") none (some (fun _ _ _ => true)) none none none
    (some (fun f _ _ => f)) (some (fun a => a)) false false false false false false none

/-- A document-fragment constructor argument (`nodeType` 11), for the
C10 witness. -/
def c10arg : WndwFragment Nat Nat := ⟨false, none, some 11, 7, 0⟩

/-- C1, counterexample: the claim says `isSuite` returns true iff
`node.tests` is present, and fails with a FormatError when `tests` is
present but not an array.  On the node `{ name: 'card', tests: 0 }` the
`tests` property is present (and is not an array), yet the source's
truthiness test `if (test.tests)` fails, so `isSuite` falls through to
the name check and returns `false` — neither `true` nor an error. -/
theorem C1_isSuite_presence_counterexample :
    c1node.tests.present = true ∧
    isSuite c1node = .ok false ∧
    isSuite c1node ≠ .ok true ∧
    isSuite c1node ≠ .error "Test suites must include an array of tests" := by
  refine ⟨rfl, rfl, ?_, ?_⟩ <;>
    simp [isSuite, c1node, FieldVal.truthy, FieldVal.isString]

/-- C1, amended: `isSuite(node)` returns true iff `node.tests` is
truthy (present and not a JavaScript falsy value); if `tests` is truthy
but not an array it fails with the FormatError about the array of
tests; if `tests` is falsy (in particular absent) it returns false iff
`node.name` is a string, and otherwise fails with the missing-name
FormatError.  In particular every node with a `tests` array (including
the empty array, which is truthy) yields true, and every node with only
a string `name` and no `tests` yields false. -/
theorem C1_isSuite_truthiness (n : JSNode) :
    (isSuite n = .ok true ↔ (n.tests.truthy = true ∧ n.tests.isArray = true)) ∧
    (isSuite n = .error "Test suites must include an array of tests" ↔
      (n.tests.truthy = true ∧ n.tests.isArray = false)) ∧
    (isSuite n = .ok false ↔ (n.tests.truthy = false ∧ n.name.isString = true)) ∧
    (isSuite n = .error "Invalid exported-test or test-suite object format (missing an name)" ↔
      (n.tests.truthy = false ∧ n.name.isString = false)) ∧
    (n.tests.isArray = true → isSuite n = .ok true) ∧
    (n.tests.present = false → n.name.isString = true → isSuite n = .ok false) := by
  refine ⟨?_, ?_, ?_, ?_, fun h => ?_, fun hp hn => ?_⟩
  · unfold isSuite
    split_ifs <;> simp_all
  · unfold isSuite
    split_ifs <;> simp_all
  · unfold isSuite
    split_ifs <;> simp_all
  · unfold isSuite
    split_ifs <;> simp_all
  · have ht := FieldVal.truthy_of_isArray h
    unfold isSuite
    simp [ht, h]
  · have ht := FieldVal.not_truthy_of_not_present hp
    unfold isSuite
    simp [ht, hn]

/-- C1, witness for the amended claim: a node with an empty `tests`
array is a suite, and a node with only a string name is not. -/
theorem C1_isSuite_truthiness_witness :
    isSuite ⟨.str "card", .arr 0, .undef, .undef⟩ = .ok true ∧
    isSuite ⟨.str "card", .undef, .undef, .undef⟩ = .ok false :=
  ⟨(C1_isSuite_truthiness ⟨.str "card", .arr 0, .undef, .undef⟩).2.2.2.2.1 rfl,
   (C1_isSuite_truthiness ⟨.str "card", .undef, .undef, .undef⟩).2.2.2.2.2 rfl rfl⟩

/-- C2: `getTestType` returns `set` whenever `getFragmentSet` is
callable, regardless of the other fields (including `inheritedTests`);
otherwise `inherit` when `inheritedTests` is an array; otherwise
`default`. -/
theorem C2_getTestType_precedence (n : JSNode) :
    (n.getFragmentSet.isFunction = true → getTestType n = "set") ∧
    (n.getFragmentSet.isFunction = false → n.inheritedTests.isArray = true →
      getTestType n = "inherit") ∧
    (n.getFragmentSet.isFunction = false → n.inheritedTests.isArray = false →
      getTestType n = "default") := by
  refine ⟨fun h => ?_, fun h1 h2 => ?_, fun h1 h2 => ?_⟩
  · simp [getTestType, h]
  · simp [getTestType, h1, h2]
  · simp [getTestType, h1, h2]

/-- C2, witness: on a node with both a callable `getFragmentSet` and an
`inheritedTests` array the type is `set`; dropping the function yields
`inherit`; dropping both yields `default`. -/
theorem C2_getTestType_precedence_witness :
    getTestType c2node = "set" ∧
    getTestType ⟨.str "n", .undef, .undef, .arr 3⟩ = "inherit" ∧
    getTestType ⟨.str "n", .undef, .undef, .undef⟩ = "default" :=
  ⟨(C2_getTestType_precedence c2node).1 rfl,
   (C2_getTestType_precedence ⟨.str "n", .undef, .undef, .arr 3⟩).2.1 rfl rfl,
   (C2_getTestType_precedence ⟨.str "n", .undef, .undef, .undef⟩).2.2 rfl rfl⟩

/-- C4: when a suite's `checkConditions` returns a falsy value,
`createSuite` performs only that condition call: no hook registration
(setup or cleanup), no `describe`, no recursion, and in particular zero
leaf-test registrations under the suite, whatever the
`includeSetupCleanup` flag. -/
theorem C4_createSuite_gate_prunes {F W A R : Type} (w : Option W) (t : TNode F W A R)
    (f : F) (i : Option Nat) (incl : Bool) (c : F → Option W → Option Nat → Bool)
    (hc : t.checkConditions = some c) (hres : c f w i = false) :
    createSuite (A := A) (R := R) w t f i incl = ([.condCall f w i false], none) ∧
    (createSuite (A := A) (R := R) w t f i incl).1.countP Event.isItRegEvent = 0 ∧
    (createSuite (A := A) (R := R) w t f i incl).1.countP Event.isHookRegEvent = 0 ∧
    (createSuite (A := A) (R := R) w t f i incl).1.countP Event.isDescribeStartEvent = 0 := by
  have hgate : doParseTest (R := R) w t.checkConditions f i = ([.condCall f w i false], false) := by
    simp [doParseTest, hc, hres]
  have h1 : createSuite (A := A) (R := R) w t f i incl = ([.condCall f w i false], none) := by
    rw [createSuite_gate_false w t f i incl (by rw [hgate])]
    rw [hgate]
  refine ⟨h1, ?_, ?_, ?_⟩ <;> rw [h1] <;> rfl

/-- C4, witness: a suite with hooks, a child test and an
always-false condition produces only the condition-call event. -/
theorem C4_createSuite_gate_prunes_witness :
    createSuite (W := Nat) none c4node 5 none true = ([.condCall 5 none none false], none) :=
  (C4_createSuite_gate_prunes none c4node 5 none true (fun _ _ _ => false) rfl rfl).1

/-- C5: `createTest` fails with the FormatError exactly when
`getActual` or `runComparison` is not callable or `name` is not a
string, registering nothing; otherwise it registers exactly one test,
whose body calls `getActual(fragment, window, index)`, awaits it, and
feeds the settled value to `runComparison`. -/
theorem C5_createTest_contract {F W A R : Type} (w : Option W) (t : TNode F W A R) (f : F)
    (i : Option Nat) :
    ((createTest w t f i).2.isSome ↔
      (t.getActual = none ∨ t.runComparison = none ∨ t.name = none)) ∧
    ((t.getActual = none ∨ t.runComparison = none ∨ t.name = none) →
      createTest w t f i = ([], some (.format "Invalid Exported Tests test format"))) ∧
    (∀ ga rc n, t.getActual = some ga → t.runComparison = some rc → t.name = some n →
      createTest w t f i = ([.itReg n f w i (rc (ga f w i))], none)) := by
  rcases hga : t.getActual with _ | ga <;> rcases hrc : t.runComparison with _ | rc <;>
    rcases hn : t.name with _ | n <;>
      simp [createTest, hga, hrc, hn]

/-- C5, witness: a well-formed leaf registers one test computing
`runComparison (getActual 3 null undefined)`; a leaf without
`runComparison` throws the FormatError and registers nothing. -/
theorem C5_createTest_contract_witness :
    createTest (W := Nat) none c5good 3 none = ([.itReg "t1" 3 none none 6], none) ∧
    createTest (W := Nat) none c5bad 3 none =
      ([], some (.format "Invalid Exported Tests test format")) :=
  ⟨(C5_createTest_contract none c5good 3 none).2.2 _ _ _ rfl rfl rfl,
   (C5_createTest_contract none c5bad 3 none).2.1 (Or.inr (Or.inl rfl))⟩

/-- C6: a node classified as a suite whose test type is `inherit`
(no callable `getFragmentSet`, `inheritedTests` an array) hits the
suite dispatch table, which has no `inherit` entry: the lookup yields
`undefined` and invoking it throws, with no create operation
dispatched. -/
theorem C6_suiteInherit_typeError {F W A R : Type} (w : Option W) (t : TNode F W A R)
    (f : F) (i : Option Nat)
    (hs : TNode.isSuite t = Except.ok true)
    (ht : TNode.getTestType t = "inherit") :
    parseNode (A := A) (R := R) w t f i = ([], some JsErr.typeError) := by
  rw [parseNode.eq_def]
  simp [hs, ht]

/-- C6, witness: a suite with a `tests` array, an `inheritedTests`
array and no `getFragmentSet` makes the traversal of the node fail with
the TypeError. -/
theorem C6_suiteInherit_typeError_witness :
    parseNode (W := Nat) none c6node 0 none = ([], some JsErr.typeError) :=
  C6_suiteInherit_typeError none c6node 0 none rfl rfl

/-- C8: `parser` fails with the FormatError when the `nodes` argument
is not an array (modelled by `none`), and an empty array is a no-op:
no event and no error. -/
theorem C8_parser_array_check {F W A R : Type} (w : Option W) (f : F) (i : Option Nat) :
    parser (A := A) (R := R) w none f i =
      ([], some (.format "Test parser requires an array of test-suite objects")) ∧
    parser w (some ([] : List (TNode F W A R))) f i = ([], none) := by
  constructor
  · simp [parser]
  · simp [parser, parserNodes]

/-- C9: `getFragment` returns `getSubFragment(parentFragment)` when the
node has a callable `getSubFragment`, and otherwise — including when
the node itself is `null`/`undefined` — returns the parent fragment
unchanged. -/
theorem C9_getFragment_identity {F W A R : Type} (t : TNode F W A R) (g : F → F) (f : F) :
    (getFragment (none : Option (TNode F W A R)) f = f) ∧
    (t.getSubFragment = some g → getFragment (some t) f = g f) ∧
    (t.getSubFragment = none → getFragment (some t) f = f) := by
  refine ⟨rfl, fun h => ?_, fun h => ?_⟩ <;> simp [getFragment, h]

/-- C9, witness: a node multiplying the fragment by ten resolves 4 to
40; the `null` node resolves 4 to itself. -/
theorem C9_getFragment_identity_witness :
    getFragment (some c9node) 4 = 40 ∧
    getFragment (none : Option (TNode Nat Nat Nat Nat)) 4 = 4 :=
  ⟨(C9_getFragment_identity c9node (fun f => f * 10) 4).2.1 rfl,
   (C9_getFragment_identity c9node (fun f => f * 10) 4).1⟩

/-- C3: for a node whose `getFragmentSet` returns sub-fragments
`g f = [f0, ..., f(N-1)]`, `createFragmentSuite` opens one `describe`,
runs the node-level setup exactly once before the loop, then produces
one indexed block per sub-fragment in order — the block at position `i`
invokes the passed-in dispatch function on
`(node, i-th sub-fragment, i, false)` — and runs the cleanup exactly
once after the loop. -/
theorem C3_createFragmentSuite_shape {F W A R : Type} (w : Option W) (t : TNode F W A R)
    (f : F) (tag : FragTag) (g : F → List F) (hg : t.getFragmentSet = some g) :
    createFragmentSuite (R := R) w t f tag =
      inDescribe t.name
        (andThenR (okR (suiteSetup t))
          (andThenR
            (seqR (((g f).enum).map (fun p =>
              inDescribe (some (setIdxName t p.1)) (applyTestFn w tag t p.2 p.1 false))))
            (okR (suiteCleanup t)))) := by
  rw [createFragmentSuite.eq_def]
  simp only [hg]
  rw [fragmentLoop_enumFrom w t tag (g f) 0]
  rfl

/-- C3, witness: a fragment set of two sub-fragments produces exactly
the two indexed dispatch blocks, in order, between one setup and one
cleanup. -/
theorem C3_createFragmentSuite_shape_witness :
    createFragmentSuite (W := Nat) none c3node 5 FragTag.testFn =
      inDescribe (some "FS")
        (andThenR (okR (suiteSetup c3node))
          (andThenR
            (seqR ((([6, 7] : List Nat).enum).map (fun p =>
              inDescribe (some (setIdxName c3node p.1))
                (applyTestFn none FragTag.testFn c3node p.2 p.1 false))))
            (okR (suiteCleanup c3node)))) :=
  C3_createFragmentSuite_shape none c3node 5 FragTag.testFn (fun f => [f + 1, f + 2]) rfl

/-- C7: construction accepts exactly the three context shapes — a
window-like object (`window === self` with a document, whose document
becomes the root fragment), a document-fragment node (`nodeType` 11,
used directly), or an element node (`nodeType` 1, wrapped into a fresh
fragment) — and for every other shape it fails with the ContextError
with no traversal event; on success it immediately performs the one
full traversal of the node sequence against the resolved root
fragment. -/
theorem C7_construct_contract {F W A R : Type} (wrap : F → F)
    (tests : Option (List (TNode F W A R))) (arg : WndwFragment F W) :
    (∀ d, arg.windowIsSelf = true → arg.document = some d →
      construct wrap tests arg =
        (some (some arg.selfWindow, d), parser (some arg.selfWindow) tests d none)) ∧
    ((arg.windowIsSelf = false ∨ arg.document = none) → arg.nodeType = some 11 →
      construct wrap tests arg =
        (some (none, arg.selfFrag), parser none tests arg.selfFrag none)) ∧
    ((arg.windowIsSelf = false ∨ arg.document = none) → arg.nodeType ≠ some 11 →
      arg.nodeType = some 1 →
      construct wrap tests arg =
        (some (none, wrap arg.selfFrag), parser none tests (wrap arg.selfFrag) none)) ∧
    ((arg.windowIsSelf = false ∨ arg.document = none) → arg.nodeType ≠ some 11 →
      arg.nodeType ≠ some 1 →
      construct wrap tests arg =
        (none, ([], some (.context
          "Exported Tests require a Window object, DocumentFragment, or HTML element")))) :=
  ⟨fun d hw hd => construct_window wrap tests arg d hw hd,
   fun hnw hnt => construct_fragment wrap tests arg hnw hnt,
   fun hnw hnt het => construct_element wrap tests arg hnw hnt het,
   fun hnw hnt het => construct_other wrap tests arg hnw hnt het⟩

/-- C7, witness: a window-shaped context resolves to its document and
traverses; a text-node context throws the ContextError with an empty
trace. -/
theorem C7_construct_contract_witness :
    construct (fun f => f + 100) (some ([] : List (TNode Nat Nat Nat Nat))) c7warg =
      (some (some 9, 5), parser (some 9) (some ([] : List (TNode Nat Nat Nat Nat))) 5 none) ∧
    construct (fun f => f + 100) (some ([] : List (TNode Nat Nat Nat Nat))) c7oarg =
      (none, ([], some (.context
        "Exported Tests require a Window object, DocumentFragment, or HTML element"))) :=
  ⟨(C7_construct_contract (fun f => f + 100) (some []) c7warg).1 5 rfl rfl,
   (C7_construct_contract (fun f => f + 100) (some []) c7oarg).2.2.2
     (Or.inl rfl) (by decide) (by decide)⟩

/-- C10: an engine constructed from a document-fragment or element
context keeps a `null` window: the resolved instance state has
`window = none`, and every condition check (`condCall`) and leaf-test
registration (`itReg`) in the whole construction-time traversal passes
`none` as the window argument to the user-supplied callbacks. -/
theorem C10_window_null_invariant {F W A R : Type} (wrap : F → F)
    (tests : Option (List (TNode F W A R))) (arg : WndwFragment F W)
    (hnw : arg.windowIsSelf = false ∨ arg.document = none)
    (hnt : arg.nodeType = some 11 ∨ arg.nodeType = some 1) :
    (construct wrap tests arg).1.map Prod.fst = some none ∧
    (∀ e ∈ (construct wrap tests arg).2.1, usesWindow none e) := by
  rcases hnt with h11 | h1
  · rw [construct_fragment wrap tests arg hnw h11]
    exact ⟨rfl, parser_usesWindow none tests arg.selfFrag none⟩
  · have h11 : arg.nodeType ≠ some 11 := by simp [h1]
    rw [construct_element wrap tests arg hnw h11 h1]
    exact ⟨rfl, parser_usesWindow none tests (wrap arg.selfFrag) none⟩

/-- C10, witness: an engine built from a document-fragment context has
a `null` window and passes `none` to every recorded callback. -/
theorem C10_window_null_invariant_witness :
    (construct (fun f => f) (some [c10leaf]) c10arg).1.map Prod.fst = some none ∧
    (∀ e ∈ (construct (fun f => f) (some [c10leaf]) c10arg).2.1, usesWindow none e) :=
  C10_window_null_invariant (fun f => f) (some [c10leaf]) c10arg (Or.inl rfl) (Or.inl rfl)

end ExportedTests
